import Mathlib

/-!
Verification of the IP Freely main-window orchestration layer
(`Source/IpFreelyMainWindow.cpp`).

The development shallowly embeds the parts of the code that the claims are
about:

* the frame-composition pipeline `IpFreelyMainWindow::UpdateCamFeedFrame`
  (scaling decision, uniform scale factor, motion-bounding-rectangle
  rescaling, user motion regions, red/green intersection decision,
  recording label);
* the per-slot connection state machine `IpFreelyMainWindow::ConnectionHandler`
  together with the handlers built on top of it (`on_connectNToolButton_clicked`,
  `ReconnectCamera`, `EnableMotionRegionsSetup`, `VideoFrameAreaSelection`,
  `RemoveMotionRegions`);
* the poll-timer tick `IpFreelyMainWindow::on_updateFeedsTimer`.

Modelling conventions:

* C++ `double` arithmetic in the renderer only ever holds exact rational
  values of the form `p / q` with machine-integer `p`, `q` (aspect ratios,
  the uniform scale factor, products of an integer coordinate with the
  scale factor).  The embedding computes those values exactly, writing each
  comparison in cross-multiplied integer form and each
  `static_cast<int>(...)` (truncation toward zero) as `Int.tdiv` of the
  exact numerator and denominator.  For the magnitudes involved (frame and
  widget dimensions) the exact rational value and the IEEE double agree on
  every comparison and truncation used by the theorems below.
* Qt types are embedded by their documented integer semantics: `QRect`
  stores `x1 y1 x2 y2` with `width = x2 - x1 + 1`; `QRect::intersects`
  and `QSize::scaled(..., Qt::KeepAspectRatio)` follow the Qt source.
* The GUI state touched by the connection state machine is a record
  (`MainState`); Qt maps (`m_streamProcessors`, `m_camFeeds`,
  `m_camMotionRegions`, `m_motionAreaSetupEnabled`) become functions from
  camera id to `Bool` / `Option _` (absent entry = `none`), and the
  stream-processor collaborator is abstracted to its observable effect
  (present / absent) plus a `ctorOk` parameter telling whether its
  constructor would throw.  Purely decorative updates (group-box titles,
  tool tips, icon file names beyond connect/disconnect, layout plumbing)
  are not modelled.
* `QToolButton::setChecked(false)` during disconnect re-fires the toggled
  handler; its net effect (hide the remove-regions button, erase the
  working-region and edit-mode entries) is already performed by
  `ConnectionHandler` itself, so the embedding folds the re-entrant call
  into the single disconnect update, which is extensionally the same.
-/

namespace IpFreely

/-- The four camera slots (`ipfreely::eCamId` without `noCam`; the `noCam`
value is represented as `none` at the one use site, `m_videoFormId`). -/
inductive CamId where
  | cam1 : CamId
  | cam2 : CamId
  | cam3 : CamId
  | cam4 : CamId
deriving DecidableEq, Repr

/-- The slot ids in the fixed order used by iteration over the per-slot maps. -/
def camIds : List CamId := [CamId.cam1, CamId.cam2, CamId.cam3, CamId.cam4]

/-- Qt `QRect`: stored as left/top/right/bottom (`x1 y1 x2 y2`), so that
`width = x2 - x1 + 1` and `height = y2 - y1 + 1`. -/
structure QRect where
  x1 : Int
  y1 : Int
  x2 : Int
  y2 : Int
deriving DecidableEq, Repr

/-- `QRect(x, y, w, h)` constructor: `x2 = x + w - 1`, `y2 = y + h - 1`. -/
def QRect.mkXYWH (x y w h : Int) : QRect :=
  { x1 := x, y1 := y, x2 := x + w - 1, y2 := y + h - 1 }

/-- `QRect::isNull`: both width and height are zero. -/
def QRect.isNull (r : QRect) : Bool :=
  r.x2 == r.x1 - 1 && r.y2 == r.y1 - 1

/-- `QRect::width`. -/
def QRect.width (r : QRect) : Int := r.x2 - r.x1 + 1

/-- `QRect::height`. -/
def QRect.height (r : QRect) : Int := r.y2 - r.y1 + 1

/-- `QRect::intersects`, following the Qt implementation: null rectangles
never intersect; otherwise each rectangle is normalised (swapping the two
x respectively y coordinates when the stored width or height is negative)
and the closed integer intervals are compared. -/
def QRect.intersects (a b : QRect) : Bool :=
  if a.isNull || b.isNull then false
  else
    let l1 := if a.x2 - a.x1 + 1 < 0 then a.x2 else a.x1
    let r1 := if a.x2 - a.x1 + 1 < 0 then a.x1 else a.x2
    let l2 := if b.x2 - b.x1 + 1 < 0 then b.x2 else b.x1
    let r2 := if b.x2 - b.x1 + 1 < 0 then b.x1 else b.x2
    if l1 > r2 || l2 > r1 then false
    else
      let t1 := if a.y2 - a.y1 + 1 < 0 then a.y2 else a.y1
      let b1 := if a.y2 - a.y1 + 1 < 0 then a.y1 else a.y2
      let t2 := if b.y2 - b.y1 + 1 < 0 then b.y2 else b.y1
      let b2 := if b.y2 - b.y1 + 1 < 0 then b.y1 else b.y2
      if t1 > b2 || t2 > b1 then false else true

/-- An exact fraction `num / den` (not normalised).  Models a C++ `double`
that holds such a value exactly; in this code base that covers all the
normalised motion-region coordinates, which are fractions of widget
dimensions. -/
structure Frac where
  num : Int
  den : Int
deriving DecidableEq, Repr

/-- A normalised rectangle (`QRectF` percentage selection /
`IpCamera::region_t`): left, top, width and height as fractions of the
widget size, each in `[0, 1]`. -/
structure QRectF where
  left : Frac
  top : Frac
  width : Frac
  height : Frac
deriving DecidableEq, Repr

/-- `static_cast<int>(f * w)` for an exact fraction `f` and integer `w`:
truncation toward zero of the exact product. -/
def Frac.scaleTrunc (f : Frac) (w : Int) : Int :=
  (f.num * w).tdiv f.den

/-- Modelled from the spec: `ipfreely::CreateQRectFromVideoFrameDims` (declared
in the stream-processor collaborator's headers, not part of this repository
slice): "every normalized user region is converted to absolute pixels against
the displayed (post-scale) dimensions", i.e. each fractional coordinate is
multiplied by the corresponding displayed dimension and truncated to int,
giving a `QRect(x, y, w, h)`. -/
def CreateQRectFromVideoFrameDims (w h : Int) (region : QRectF) : QRect :=
  QRect.mkXYWH (region.left.scaleTrunc w) (region.top.scaleTrunc h)
    (region.width.scaleTrunc w) (region.height.scaleTrunc h)

/-- `QSize(w, h).scaled(sw, sh, Qt::KeepAspectRatio)` as implemented by Qt:
`rw = sh * w / h` in integer arithmetic; the result is `(rw, sh)` when
`rw ≤ sw` and `(sw, sw * h / w)` otherwise (degenerate source sizes return
the target unchanged).  `QImage::scaled` produces a bitmap of exactly this
size. -/
def qtKeepAspectScaled (w h sw sh : Int) : Int × Int :=
  if w == 0 || h == 0 then (sw, sh)
  else
    let rw := (sh * w).tdiv h
    if rw ≤ sw then (rw, sh) else (sw, (sw * h).tdiv w)

/-- The `newWidth`/`newHeight` pair computed in `UpdateCamFeedFrame`'s scaling
branch: compare the frame and target aspect ratios
(`targetAspectRatio < frameAspectRatio`, here in cross-multiplied integer
form), keep the limiting dimension and derive the other from the frame
aspect ratio (`static_cast<int>` of the exact quotient). -/
def scaledNewWH (feedW feedH frameW frameH : Int) : Int × Int :=
  if feedW * frameH < frameW * feedH then
    -- newWidth = feedW; newHeight = int(newWidth / frameAspectRatio)
    (feedW, (feedW * frameH).tdiv frameW)
  else
    -- newHeight = feedH; newWidth = int(newHeight * frameAspectRatio)
    ((feedH * frameW).tdiv frameH, feedH)

/-- The motion bounding rectangle after `UpdateCamFeedFrame`'s
`rect.setTop/setLeft/setRight/setBottom(int(edge * scalar))` block, with the
scalar given as the exact fraction `sNum / sDen`; a null input rectangle is
left untouched. -/
def scaledMotionRect (mr : QRect) (sNum sDen : Int) : QRect :=
  if !mr.isNull then
    { x1 := (mr.x1 * sNum).tdiv sDen,
      y1 := (mr.y1 * sNum).tdiv sDen,
      x2 := (mr.x2 * sNum).tdiv sDen,
      y2 := (mr.y2 * sNum).tdiv sDen }
  else mr

/-- The observable output of one `UpdateCamFeedFrame` call: the displayed
bitmap dimensions, the exact value `scalarNum / scalarDen` of the C++
`double scalar`, the cyan user-region rectangles drawn (empty unless edit
mode is on), the drawn motion bounding rectangle together with the flag
that selects red (`true`) over green (`false`), and the rectangle the
"Recording" label is drawn into. -/
structure RenderResult where
  displayW : Int
  displayH : Int
  scalarNum : Int
  scalarDen : Int
  userRegionRects : List QRect
  motionRect : Option (QRect × Bool)
  recordLabelRect : Option QRect
deriving DecidableEq, Repr

/-- `IpFreelyMainWindow::UpdateCamFeedFrame`, from the widget-size test to the
final paint, as a pure function.  `feedW/feedH` are the slot widget
dimensions, `frameW/frameH` the raw video-frame dimensions,
`motionBoundingRect` the collaborator's motion rectangle (null when absent),
`motionAreasEnabled` the slot's `m_motionAreaSetupEnabled` entry (absent
read as `false`), `motionRegions` the slot's `m_camMotionRegions` entry and
`streamProcIsWriting` the recording flag.

The C++ computes `frameAspectRatio = frameW / frameH`,
`targetAspectRatio = feedW / feedH` and `scalar = newWidth / frameW` in
`double`; the embedding keeps those rationals exact, so the aspect
comparison becomes `feedW * frameH < frameW * feedH` and each
`static_cast<int>` of `value / ratio` or `value * scalar` becomes an
`Int.tdiv` of the exact numerator by the exact denominator. -/
def UpdateCamFeedFrame (feedW feedH frameW frameH : Int) (motionBoundingRect : QRect)
    (motionAreasEnabled : Bool) (motionRegions : List QRectF)
    (streamProcIsWriting : Bool) : RenderResult :=
  -- if ((camFeedIter->second->width() < videoFrame.width()) || ...)
  let scalingApplies := feedW < frameW || feedH < frameH
  -- newWidth/newHeight: constrain the limiting dimension, keep aspect ratio.
  let newWH : Int × Int := scaledNewWH feedW feedH frameW frameH
  -- scalar = newWidth / frameW in the scaling branch, 1.0 otherwise.
  let scalarNum := if scalingApplies then newWH.1 else 1
  let scalarDen := if scalingApplies then frameW else 1
  -- dimensions of displayFrame: videoFrame.scaled(newW, newH, KeepAspectRatio)
  -- in the scaling branch, the raw frame otherwise.
  let dispWH : Int × Int :=
    if scalingApplies then qtKeepAspectScaled frameW frameH newWH.1 newWH.2
    else (frameW, frameH)
  if !motionBoundingRect.isNull || streamProcIsWriting || motionAreasEnabled then
    -- rect.setTop/setLeft/setRight/setBottom(int(edge * scalar))
    let rect : QRect := scaledMotionRect motionBoundingRect scalarNum scalarDen
    -- if (motionAreasEnabled) { for each region: draw it; track intersection }
    let userRects : List QRect :=
      if motionAreasEnabled then
        motionRegions.map (CreateQRectFromVideoFrameDims dispWH.1 dispWH.2)
      else []
    let intersectsMotionRegion : Bool :=
      userRects.foldl (fun acc r => if rect.intersects r then true else acc) false
    { displayW := dispWH.1
      displayH := dispWH.2
      scalarNum := scalarNum
      scalarDen := scalarDen
      userRegionRects := userRects
      -- if (!rect.isNull()) draw rect, red when it intersected a region.
      motionRect := if !rect.isNull then some (rect, intersectsMotionRegion) else none
      -- posRec = displayFrame.rect(); posRec.setTop(posRec.top() + 16)
      recordLabelRect :=
        if streamProcIsWriting then
          some { x1 := 0, y1 := 16, x2 := dispWH.1 - 1, y2 := dispWH.2 - 1 }
        else none }
  else
    { displayW := dispWH.1
      displayH := dispWH.2
      scalarNum := scalarNum
      scalarDen := scalarDen
      userRegionRects := []
      motionRect := none
      recordLabelRect := none }

/-- The exact numerator of the `scalar` value `UpdateCamFeedFrame` ends up
with: `newWidth` in the scaling branch, `1` otherwise. -/
def renderScalarNum (feedW feedH frameW frameH : Int) : Int :=
  if feedW < frameW || feedH < frameH then (scaledNewWH feedW feedH frameW frameH).1 else 1

/-- The exact denominator of the `scalar` value `UpdateCamFeedFrame` ends up
with: the raw frame width in the scaling branch, `1` otherwise. -/
def renderScalarDen (feedW feedH frameW frameH : Int) : Int :=
  if feedW < frameW || feedH < frameH then frameW else 1

/-- The displayed bitmap dimensions `UpdateCamFeedFrame` ends up with:
`QImage::scaled(newWidth, newHeight, KeepAspectRatio)` of the raw frame in
the scaling branch, the raw frame dimensions otherwise. -/
def renderDisplayWH (feedW feedH frameW frameH : Int) : Int × Int :=
  if feedW < frameW || feedH < frameH then
    qtKeepAspectScaled frameW frameH (scaledNewWH feedW feedH frameW frameH).1
      (scaledNewWH feedW feedH frameW frameH).2
  else (frameW, frameH)


/-- A rectangle lies inside a `w × h` bitmap: both stored corners within
`[0, w-1] × [0, h-1]`.  This is the "no drawn element falls outside the
displayed frame bounds" notion the spec guarantees. -/
def rectInBounds (r : QRect) (w h : Int) : Bool :=
  0 ≤ r.x1 && 0 ≤ r.y1 && r.x1 ≤ w - 1 && r.y1 ≤ h - 1 && r.x2 ≤ w - 1 && r.y2 ≤ h - 1

/-- A well-formed normalised motion region, as produced by a completed drag:
nonnegative left/top and positive width/height fractions (positive
denominators), with `left + width ≤ 1` and `top + height ≤ 1` stated in
cross-multiplied integer form. -/
def regionNormalised (g : QRectF) : Prop :=
  0 ≤ g.left.num ∧ 0 < g.left.den ∧ 0 ≤ g.top.num ∧ 0 < g.top.den ∧
  0 < g.width.num ∧ 0 < g.width.den ∧ 0 < g.height.num ∧ 0 < g.height.den ∧
  g.left.num * g.width.den + g.width.num * g.left.den ≤ g.left.den * g.width.den ∧
  g.top.num * g.height.den + g.height.num * g.top.den ≤ g.top.den * g.height.den

instance regionNormalised.decidable (g : QRectF) : Decidable (regionNormalised g) := by
  unfold regionNormalised
  infer_instance

/-- The amended C9 guarantees for one render result (the original claim fails
in the width-constrained scaling branch, see the counterexample): the output
dimensions are the raw dimensions when unscaled and fit inside the slot when
scaled; drawn user regions always stay inside the displayed bitmap; the
recording label stays inside it whenever the display is at least 17 pixels
high; the drawn motion rectangle has a nonnegative top-left corner, stays
entirely inside the displayed bitmap when the frame is unscaled or the
height-constrained branch is taken (nonzero display width), and in the
width-constrained branch its right edge stays within the slot width while
its bottom edge can reach at most one pixel past the displayed height. -/
def renderBoundsOk (feedW feedH frameW frameH : Int) (res : RenderResult) : Prop :=
  (¬(feedW < frameW ∨ feedH < frameH) →
    res.displayW = frameW ∧ res.displayH = frameH) ∧
  ((feedW < frameW ∨ feedH < frameH) →
    0 ≤ res.displayW ∧ res.displayW ≤ feedW ∧ 0 ≤ res.displayH ∧ res.displayH ≤ feedH) ∧
  (0 < res.displayW → 0 < res.displayH →
    ∀ q ∈ res.userRegionRects, rectInBounds q res.displayW res.displayH = true) ∧
  (∀ r, res.recordLabelRect = some r → 17 ≤ res.displayH → 0 < res.displayW →
    rectInBounds r res.displayW res.displayH = true) ∧
  (∀ r b, res.motionRect = some (r, b) →
    (0 ≤ r.x1 ∧ 0 ≤ r.y1) ∧
    (¬(feedW < frameW ∨ feedH < frameH) →
      rectInBounds r res.displayW res.displayH = true) ∧
    ((feedW < frameW ∨ feedH < frameH) → ¬(feedW * frameH < frameW * feedH) →
      0 < res.displayW → rectInBounds r res.displayW res.displayH = true) ∧
    ((feedW < frameW ∨ feedH < frameH) → feedW * frameH < frameW * feedH →
      r.x2 ≤ feedW - 1 ∧ r.y2 ≤ res.displayH))

/-- The camera configuration (`ipfreely::IpCamera`) restricted to the fields
the main window reads: the slot id, the two recording-schedule gates, the
storage URL (only tested for emptiness) and the persisted motion regions. -/
structure IpCamera where
  camId : CamId
  enableScheduledRecording : Bool
  enabledMotionRecording : Bool
  storageHttpUrl : String
  motionRegions : List QRectF
deriving DecidableEq, Repr

/-- Per-slot tool-button state: enabled flags, the checked state of the
motion-regions toggle, the visibility of the remove-regions button, and
whether the connect button currently shows the disconnect icon. -/
structure SlotUi where
  connectShowsDisconnect : Bool
  recordEnabled : Bool
  snapshotEnabled : Bool
  expandEnabled : Bool
  storageEnabled : Bool
  motionRegionsEnabled : Bool
  motionRegionsChecked : Bool
  removeRegionsVisible : Bool
deriving DecidableEq, Repr

/-- The `IpFreelyMainWindow` state touched by the connection state machine.
`streamProcessors c = true` means `m_streamProcessors` holds an entry for
`c` (a bound collaborator); the `Option`-valued maps model presence or
absence of a `std::map` entry. -/
structure MainState where
  numConnections : Int
  updateFeedsTimerActive : Bool
  streamProcessors : CamId → Bool
  camFeeds : CamId → Bool
  camMotionRegions : CamId → Option (List QRectF)
  motionAreaSetupEnabled : CamId → Option Bool
  videoFormVisible : Bool
  videoFormId : Option CamId
  ui : CamId → SlotUi
  camDb : CamId → Option IpCamera

/-- Point update of a per-slot map. -/
def updF {α : Type} (f : CamId → α) (c : CamId) (a : α) : CamId → α :=
  fun c2 => if c2 = c then a else f c2

/-- The number of slots that currently have a bound collaborator. -/
def connectedCount (s : MainState) : Int :=
  ((camIds.filter fun c => s.streamProcessors c).length : Int)

/-- `IpFreelyMainWindow::ConnectionHandler`.  `camera` is the configuration
found by the calling `on_connectNToolButton_clicked`; `ctorOk` tells whether
the `IpFreelyStreamProcessor` constructor succeeds or throws.

Source ordering notes:
* the timer is stopped unconditionally at entry (`isActive` + `stop`);
* in the disconnect branch, `--m_numConnections > 0` restarts the timer,
  so afterwards the timer runs exactly when the decremented counter is
  positive — written here as a direct field assignment;
* `motionRegionsBtn->setChecked(false)` may re-fire the toggled handler;
  its net effect is subsumed by the erases already done in this branch
  (see the header comment);
* in the connect branch the constructor is called before any other mutation,
  so on `ctorOk = false` the `catch` returns with only the timer stopped. -/
def ConnectionHandler (camera : IpCamera) (ctorOk : Bool) (s0 : MainState) : MainState :=
  let s := { s0 with updateFeedsTimerActive := false }
  if s.streamProcessors camera.camId then
    -- Disconnect: close the expanded view if it targets this camera,
    -- erase the per-slot entries, restore disconnected UI affordances.
    { s with
      videoFormVisible := s.videoFormVisible && !(s.videoFormId == some camera.camId),
      videoFormId :=
        if s.videoFormVisible && s.videoFormId == some camera.camId then none
        else s.videoFormId,
      streamProcessors := updF s.streamProcessors camera.camId false,
      camFeeds := updF s.camFeeds camera.camId false,
      camMotionRegions := updF s.camMotionRegions camera.camId none,
      motionAreaSetupEnabled := updF s.motionAreaSetupEnabled camera.camId none,
      ui := updF s.ui camera.camId
        { connectShowsDisconnect := false,
          recordEnabled := false,
          snapshotEnabled := false,
          expandEnabled := false,
          storageEnabled := false,
          motionRegionsEnabled := false,
          motionRegionsChecked := false,
          removeRegionsVisible := false },
      numConnections := s.numConnections - 1,
      updateFeedsTimerActive := decide (s.numConnections - 1 > 0) }
  else
    if ctorOk then
      -- Connect: bind the collaborator, create the feed widget, enable the
      -- capture-dependent affordances, bump the counter, start the timer.
      { s with
        streamProcessors := updF s.streamProcessors camera.camId true,
        camFeeds := updF s.camFeeds camera.camId true,
        ui := updF s.ui camera.camId
          { connectShowsDisconnect := true,
            recordEnabled := !camera.enableScheduledRecording,
            snapshotEnabled := true,
            expandEnabled := true,
            storageEnabled := !camera.storageHttpUrl.isEmpty,
            motionRegionsEnabled := true,
            motionRegionsChecked := (s.ui camera.camId).motionRegionsChecked,
            removeRegionsVisible := (s.ui camera.camId).removeRegionsVisible },
        numConnections := s.numConnections + 1,
        updateFeedsTimerActive := true }
    else
      -- catch: log, show the message box, return (timer left stopped).
      s

/-- `IpFreelyMainWindow::on_connectNToolButton_clicked`: look the camera up in
the database and hand it to `ConnectionHandler`; a missing configuration is
logged and nothing changes. -/
def on_connectToolButton_clicked (camId : CamId) (ctorOk : Bool) (s : MainState) : MainState :=
  match s.camDb camId with
  | none => s
  | some camera => ConnectionHandler camera ctorOk s

/-- `IpFreelyMainWindow::EnableMotionRegionsSetup`.  `tgtIsMotionBtn` records
which button the C++ passes as `setMotionRegionsBtn`: the toggled handlers
pass the remove-regions button (so the `setChecked(true)` lands there and
the tracked motion-regions checked state is untouched) while
`ReconnectCamera` passes the motion-regions button itself.  The
`setChecked(true)` is performed with signals blocked, so it never re-fires
the toggled handler. -/
def EnableMotionRegionsSetup (camId : CamId) (enable : Bool) (tgtIsMotionBtn : Bool)
    (s0 : MainState) : MainState :=
  let s := { s0 with ui := updF s0.ui camId { s0.ui camId with removeRegionsVisible := enable } }
  if !(s.camFeeds camId) then s
  else if enable then
    let s2 :=
      match s.camDb camId with
      | some camera =>
        { s with
          camMotionRegions := updF s.camMotionRegions camId (some camera.motionRegions),
          motionAreaSetupEnabled := updF s.motionAreaSetupEnabled camId (some true) }
      | none => s
    if tgtIsMotionBtn then
      { s2 with ui := updF s2.ui camId { s2.ui camId with motionRegionsChecked := true } }
    else s2
  else
    { s with
      camMotionRegions := updF s.camMotionRegions camId none,
      motionAreaSetupEnabled := updF s.motionAreaSetupEnabled camId none }

/-- `IpFreelyMainWindow::ReconnectCamera`: click the connect toggle twice
(disconnect then reconnect) and then re-assert edit mode programmatically.
`ok1`/`ok2` are the constructor outcomes of the two clicks (a click that
disconnects ignores its outcome). -/
def ReconnectCamera (camId : CamId) (ok1 ok2 : Bool) (s : MainState) : MainState :=
  EnableMotionRegionsSetup camId true true
    (on_connectToolButton_clicked camId ok2 (on_connectToolButton_clicked camId ok1 s))

/-- `IpFreelyMainWindow::ShowExpandedVideoForm`: close the expanded view if it
is already visible, set its title for the chosen camera, then target it at
that camera and show it (net effect on the tracked state: visible with the
new target). -/
def ShowExpandedVideoForm (camId : CamId) (s : MainState) : MainState :=
  { s with videoFormVisible := true, videoFormId := some camId }

/-- `IpFreelyMainWindow::VideoFrameAreaSelection`: append the completed drag's
normalised rectangle to the slot's working region set (`operator[]` creates
an empty entry first if needed); when a configuration exists, write the set
back, persist, and force the reconnect cycle. -/
def VideoFrameAreaSelection (camId : CamId) (percentageSelection : QRectF)
    (ok1 ok2 : Bool) (s0 : MainState) : MainState :=
  let s := { s0 with
    camMotionRegions := updF s0.camMotionRegions camId
      (some (((s0.camMotionRegions camId).getD []) ++ [percentageSelection])) }
  match s.camDb camId with
  | none => s
  | some camera =>
    let camera2 := { camera with motionRegions := (s.camMotionRegions camId).getD [] }
    let s2 := { s with camDb := updF s.camDb camera2.camId (some camera2) }
    ReconnectCamera camId ok1 ok2 s2

/-- `IpFreelyMainWindow::RemoveMotionRegions`.  `confirmRemove` is the user's
answer to the confirmation dialog; `No` returns before any mutation. -/
def RemoveMotionRegions (camId : CamId) (confirmRemove : Bool) (ok1 ok2 : Bool)
    (s : MainState) : MainState :=
  match s.camDb camId with
  | none => s
  | some camera =>
    if confirmRemove then
      let s2 := { s with camMotionRegions := updF s.camMotionRegions camId (some []) }
      let camera2 := { camera with motionRegions := [] }
      let s3 := { s2 with camDb := updF s2.camDb camera2.camId (some camera2) }
      ReconnectCamera camId ok1 ok2 s3
    else s

/-- `IpFreelyMainWindow::on_updateFeedsTimer` as its dispatch trace: iterate
over the bound collaborators, and for each one whose `VideoFrameUpdated()`
reports a fresh frame, emit one `UpdateCamFeedFrame` dispatch carrying
`CurrentVideoFrame()` (frames are abstracted to an integer token by the
`currentVideoFrame` oracle; nothing is queued, only the current frame is
read). -/
def on_updateFeedsTimer (s : MainState) (videoFrameUpdated : CamId → Bool)
    (currentVideoFrame : CamId → Int) : List (CamId × Int) :=
  (camIds.filter fun c => s.streamProcessors c && videoFrameUpdated c).map
    fun c => (c, currentVideoFrame c)

/-! Concrete fixtures used by witnesses and by the failing runs. -/

/-- All per-slot buttons in their startup (disconnected) state. -/
def defaultSlotUi : SlotUi :=
  { connectShowsDisconnect := false, recordEnabled := false, snapshotEnabled := false,
    expandEnabled := false, storageEnabled := false, motionRegionsEnabled := false,
    motionRegionsChecked := false, removeRegionsVisible := false }

/-- A stored configuration for camera slot 1. -/
def sampleCam1 : IpCamera :=
  { camId := CamId.cam1, enableScheduledRecording := false, enabledMotionRecording := true,
    storageHttpUrl := "", motionRegions := [] }

/-- A stored configuration for camera slot 2. -/
def sampleCam2 : IpCamera :=
  { camId := CamId.cam2, enableScheduledRecording := false, enabledMotionRecording := false,
    storageHttpUrl := "", motionRegions := [] }

/-- The application state right after startup, with cameras 1 and 2 configured
in the database and nothing connected. -/
def startState : MainState :=
  { numConnections := 0
    updateFeedsTimerActive := false
    streamProcessors := fun _ => false
    camFeeds := fun _ => false
    camMotionRegions := fun _ => none
    motionAreaSetupEnabled := fun _ => none
    videoFormVisible := false
    videoFormId := none
    ui := fun _ => defaultSlotUi
    camDb := fun c =>
      if c = CamId.cam1 then some sampleCam1
      else if c = CamId.cam2 then some sampleCam2 else none }

/-! C1 / C2: the connection counter and the poll timer. -/

/-- C1: the claim states that at every reachable state the connection counter
equals the number of bound collaborators AND the shared poll timer runs iff
that count is positive, including after toggles whose collaborator
construction fails.  The code violates the timer half: `ConnectionHandler`
stops the timer on entry and the construction-failure `catch` returns
without restarting it.  This theorem evaluates the code on the failing run:
connect camera 1 (succeeds, timer running), then attempt to connect camera 2
with a failing constructor — afterwards the counter and the bound-collaborator
count still agree at 1 > 0, yet the timer is stopped. -/
theorem connect_failure_breaks_timer_invariant :
    (on_connectToolButton_clicked CamId.cam1 true startState).updateFeedsTimerActive = true ∧
    (on_connectToolButton_clicked CamId.cam2 false
        (on_connectToolButton_clicked CamId.cam1 true startState)).numConnections = 1 ∧
    connectedCount
        (on_connectToolButton_clicked CamId.cam2 false
          (on_connectToolButton_clicked CamId.cam1 true startState)) = 1 ∧
    (on_connectToolButton_clicked CamId.cam2 false
        (on_connectToolButton_clicked CamId.cam1 true startState)).updateFeedsTimerActive =
      false := by
  refine ⟨rfl, rfl, ?_, rfl⟩
  decide

/-- C2: the claim states that a connect toggle whose collaborator construction
fails leaves that slot disconnected and affects no other slot — in
particular the shared poll timer keeps running for still-connected slots.
On the failing run (camera 1 connected, camera 2's construction fails) the
slot indeed stays disconnected and camera 1 stays bound, but the timer,
running before the failed toggle, is left stopped, so camera 1's polling is
suspended. -/
theorem connect_failure_suspends_other_slot_polling :
    (on_connectToolButton_clicked CamId.cam2 false
        (on_connectToolButton_clicked CamId.cam1 true startState)).streamProcessors
        CamId.cam2 = false ∧
    (on_connectToolButton_clicked CamId.cam2 false
        (on_connectToolButton_clicked CamId.cam1 true startState)).streamProcessors
        CamId.cam1 = true ∧
    (on_connectToolButton_clicked CamId.cam1 true startState).updateFeedsTimerActive = true ∧
    (on_connectToolButton_clicked CamId.cam2 false
        (on_connectToolButton_clicked CamId.cam1 true startState)).updateFeedsTimerActive =
      false := by
  exact ⟨rfl, rfl, rfl, rfl⟩

/-! C8: the poll tick. -/

/-- C8: on every poll-timer tick, each slot receives at most one frame-update
dispatch, every dispatch targets a slot that has a bound collaborator at
that tick, and the dispatched frame is the collaborator's current (latest)
frame — nothing is queued. -/
theorem poll_tick_dispatches_at_most_once_per_bound_slot (s : MainState)
    (videoFrameUpdated : CamId → Bool) (currentVideoFrame : CamId → Int) :
    (∀ c : CamId,
      ((on_updateFeedsTimer s videoFrameUpdated currentVideoFrame).map Prod.fst).count c ≤ 1) ∧
    (on_updateFeedsTimer s videoFrameUpdated currentVideoFrame).all
      (fun e => s.streamProcessors e.1 && (e.2 == currentVideoFrame e.1)) = true := by
  constructor
  · intro c
    have hmap :
        ((on_updateFeedsTimer s videoFrameUpdated currentVideoFrame).map Prod.fst) =
          camIds.filter (fun c => s.streamProcessors c && videoFrameUpdated c) := by
      simp only [on_updateFeedsTimer, List.map_map]
      exact List.map_id _
    rw [hmap]
    have hsub := (List.filter_sublist
      (l := camIds) (p := fun c => s.streamProcessors c && videoFrameUpdated c)).count_le c
    refine le_trans hsub ?_
    cases c <;> decide
  · rw [List.all_eq_true]
    intro e he
    simp only [on_updateFeedsTimer, List.mem_map, List.mem_filter] at he
    obtain ⟨c, ⟨_, hc⟩, rfl⟩ := he
    simp only [Bool.and_eq_true] at hc ⊢
    exact ⟨hc.1, beq_self_eq_true _⟩

/-! Shared helper lemmas about the renderer: the loop-carried intersection
flag equals a `List.any`, and projections of `UpdateCamFeedFrame` in
branch-distributed form. -/

/-- The intersection flag accumulated by the region-drawing loop is the
disjunction of the individual intersection tests. -/
theorem foldl_intersects_eq_any (rect : QRect) (l : List QRect) (b : Bool) :
    l.foldl (fun acc r => rect.intersects r || acc) b =
      (b || l.any fun r => rect.intersects r) := by
  induction l generalizing b with
  | nil => simp
  | cons x xs ih =>
    rw [List.foldl_cons, ih, List.any_cons]
    cases h : rect.intersects x <;> cases b <;> simp [h]

theorem UpdateCamFeedFrame_scalarNum_eq (feedW feedH frameW frameH : Int) (mr : QRect)
    (me : Bool) (regs : List QRectF) (wr : Bool) :
    (UpdateCamFeedFrame feedW feedH frameW frameH mr me regs wr).scalarNum =
      renderScalarNum feedW feedH frameW frameH := by
  simp only [UpdateCamFeedFrame, renderScalarNum]
  split <;> rfl

theorem UpdateCamFeedFrame_scalarDen_eq (feedW feedH frameW frameH : Int) (mr : QRect)
    (me : Bool) (regs : List QRectF) (wr : Bool) :
    (UpdateCamFeedFrame feedW feedH frameW frameH mr me regs wr).scalarDen =
      renderScalarDen feedW feedH frameW frameH := by
  simp only [UpdateCamFeedFrame, renderScalarDen]
  split <;> rfl

theorem UpdateCamFeedFrame_displayW_eq (feedW feedH frameW frameH : Int) (mr : QRect)
    (me : Bool) (regs : List QRectF) (wr : Bool) :
    (UpdateCamFeedFrame feedW feedH frameW frameH mr me regs wr).displayW =
      (renderDisplayWH feedW feedH frameW frameH).1 := by
  simp only [UpdateCamFeedFrame, renderDisplayWH]
  split <;> rfl

theorem UpdateCamFeedFrame_displayH_eq (feedW feedH frameW frameH : Int) (mr : QRect)
    (me : Bool) (regs : List QRectF) (wr : Bool) :
    (UpdateCamFeedFrame feedW feedH frameW frameH mr me regs wr).displayH =
      (renderDisplayWH feedW feedH frameW frameH).2 := by
  simp only [UpdateCamFeedFrame, renderDisplayWH]
  split <;> rfl

theorem UpdateCamFeedFrame_userRegionRects_eq (feedW feedH frameW frameH : Int) (mr : QRect)
    (me : Bool) (regs : List QRectF) (wr : Bool) :
    (UpdateCamFeedFrame feedW feedH frameW frameH mr me regs wr).userRegionRects =
      (if me then
        regs.map (CreateQRectFromVideoFrameDims (renderDisplayWH feedW feedH frameW frameH).1
          (renderDisplayWH feedW feedH frameW frameH).2)
      else []) := by
  cases hn : mr.isNull <;> cases wr <;> cases me <;>
    simp [UpdateCamFeedFrame, renderDisplayWH, hn]

theorem UpdateCamFeedFrame_motionRect_eq (feedW feedH frameW frameH : Int) (mr : QRect)
    (me : Bool) (regs : List QRectF) (wr : Bool) :
    (UpdateCamFeedFrame feedW feedH frameW frameH mr me regs wr).motionRect =
      (if !(scaledMotionRect mr (renderScalarNum feedW feedH frameW frameH)
            (renderScalarDen feedW feedH frameW frameH)).isNull then
        some (scaledMotionRect mr (renderScalarNum feedW feedH frameW frameH)
            (renderScalarDen feedW feedH frameW frameH),
          (if me then
            regs.map (CreateQRectFromVideoFrameDims (renderDisplayWH feedW feedH frameW frameH).1
              (renderDisplayWH feedW feedH frameW frameH).2)
          else []).any fun r =>
            (scaledMotionRect mr (renderScalarNum feedW feedH frameW frameH)
              (renderScalarDen feedW feedH frameW frameH)).intersects r)
      else none) := by
  cases hn : mr.isNull <;> cases wr <;> cases me <;>
    simp [UpdateCamFeedFrame, renderScalarNum, renderScalarDen, renderDisplayWH,
      scaledMotionRect, hn, foldl_intersects_eq_any]

theorem UpdateCamFeedFrame_recordLabelRect_eq (feedW feedH frameW frameH : Int) (mr : QRect)
    (me : Bool) (regs : List QRectF) (wr : Bool) :
    (UpdateCamFeedFrame feedW feedH frameW frameH mr me regs wr).recordLabelRect =
      (if wr then
        some { x1 := 0, y1 := 16, x2 := (renderDisplayWH feedW feedH frameW frameH).1 - 1,
               y2 := (renderDisplayWH feedW feedH frameW frameH).2 - 1 }
      else none) := by
  cases hn : mr.isNull <;> cases wr <;> cases me <;>
    simp [UpdateCamFeedFrame, renderDisplayWH, hn]

/-! C10: disconnecting versus the expanded single-camera view. -/

/-- C10: for a connected slot with a stored configuration, invoking its
connect toggle (a disconnect) closes the expanded view and resets its
target to none when the view is visible and targets that slot, and leaves
the view's visibility and target untouched when the view is not targeting
that slot. -/
theorem disconnect_closes_targeting_expanded_view (s : MainState) (camId : CamId)
    (camera : IpCamera) (ctorOk : Bool) (hdb : s.camDb camId = some camera)
    (hid : camera.camId = camId) (hconn : s.streamProcessors camId = true) :
    ((s.videoFormVisible = true ∧ s.videoFormId = some camId) →
      (on_connectToolButton_clicked camId ctorOk s).videoFormVisible = false ∧
      (on_connectToolButton_clicked camId ctorOk s).videoFormId = none) ∧
    (s.videoFormId ≠ some camId →
      (on_connectToolButton_clicked camId ctorOk s).videoFormVisible = s.videoFormVisible ∧
      (on_connectToolButton_clicked camId ctorOk s).videoFormId = s.videoFormId) := by
  constructor
  · rintro ⟨hv, htgt⟩
    simp [on_connectToolButton_clicked, hdb, ConnectionHandler, hid, hconn, hv, htgt]
  · intro hne
    have hbeq : (s.videoFormId == some camId) = false := by
      simp [beq_eq_false_iff_ne, hne]
    simp [on_connectToolButton_clicked, hdb, ConnectionHandler, hid, hconn, hbeq]

/-- Witness for C10: camera 1 connected and shown in the expanded view;
disconnecting it closes the view and clears the target. -/
theorem disconnect_closes_targeting_expanded_view_witness :
    (((ShowExpandedVideoForm CamId.cam1
          (on_connectToolButton_clicked CamId.cam1 true startState)).videoFormVisible = true ∧
        (ShowExpandedVideoForm CamId.cam1
          (on_connectToolButton_clicked CamId.cam1 true startState)).videoFormId =
          some CamId.cam1) →
      (on_connectToolButton_clicked CamId.cam1 true
          (ShowExpandedVideoForm CamId.cam1
            (on_connectToolButton_clicked CamId.cam1 true startState))).videoFormVisible =
        false ∧
      (on_connectToolButton_clicked CamId.cam1 true
          (ShowExpandedVideoForm CamId.cam1
            (on_connectToolButton_clicked CamId.cam1 true startState))).videoFormId = none) ∧
    ((ShowExpandedVideoForm CamId.cam1
          (on_connectToolButton_clicked CamId.cam1 true startState)).videoFormId ≠
        some CamId.cam1 →
      (on_connectToolButton_clicked CamId.cam1 true
          (ShowExpandedVideoForm CamId.cam1
            (on_connectToolButton_clicked CamId.cam1 true startState))).videoFormVisible =
        (ShowExpandedVideoForm CamId.cam1
          (on_connectToolButton_clicked CamId.cam1 true startState)).videoFormVisible ∧
      (on_connectToolButton_clicked CamId.cam1 true
          (ShowExpandedVideoForm CamId.cam1
            (on_connectToolButton_clicked CamId.cam1 true startState))).videoFormId =
        (ShowExpandedVideoForm CamId.cam1
          (on_connectToolButton_clicked CamId.cam1 true startState)).videoFormId) :=
  disconnect_closes_targeting_expanded_view
    (ShowExpandedVideoForm CamId.cam1 (on_connectToolButton_clicked CamId.cam1 true startState))
    CamId.cam1 sampleCam1 true rfl rfl rfl

/-! C5: toggling connect twice restores the disconnected affordances. -/

/-- C5: for a disconnected slot with a stored (unchanged) configuration,
invoking the connect toggle twice — a successful connect followed by a
disconnect — leaves the slot's affordances in the original disconnected
state: record, snapshot, expand, storage and edit-regions disabled and the
connect icon restored. -/
theorem connect_toggle_twice_restores_affordances (s : MainState) (camId : CamId)
    (camera : IpCamera) (hdb : s.camDb camId = some camera) (hid : camera.camId = camId)
    (hdisc : s.streamProcessors camId = false) :
    ((on_connectToolButton_clicked camId true
        (on_connectToolButton_clicked camId true s)).ui camId).recordEnabled = false ∧
    ((on_connectToolButton_clicked camId true
        (on_connectToolButton_clicked camId true s)).ui camId).snapshotEnabled = false ∧
    ((on_connectToolButton_clicked camId true
        (on_connectToolButton_clicked camId true s)).ui camId).expandEnabled = false ∧
    ((on_connectToolButton_clicked camId true
        (on_connectToolButton_clicked camId true s)).ui camId).storageEnabled = false ∧
    ((on_connectToolButton_clicked camId true
        (on_connectToolButton_clicked camId true s)).ui camId).motionRegionsEnabled = false ∧
    ((on_connectToolButton_clicked camId true
        (on_connectToolButton_clicked camId true s)).ui camId).connectShowsDisconnect =
      false := by
  simp [on_connectToolButton_clicked, hdb, ConnectionHandler, hid, hdisc, updF]

/-- Witness for C5: toggling camera 1's connect twice from the startup state. -/
theorem connect_toggle_twice_restores_affordances_witness :
    ((on_connectToolButton_clicked CamId.cam1 true
        (on_connectToolButton_clicked CamId.cam1 true startState)).ui
        CamId.cam1).recordEnabled = false ∧
    ((on_connectToolButton_clicked CamId.cam1 true
        (on_connectToolButton_clicked CamId.cam1 true startState)).ui
        CamId.cam1).snapshotEnabled = false ∧
    ((on_connectToolButton_clicked CamId.cam1 true
        (on_connectToolButton_clicked CamId.cam1 true startState)).ui
        CamId.cam1).expandEnabled = false ∧
    ((on_connectToolButton_clicked CamId.cam1 true
        (on_connectToolButton_clicked CamId.cam1 true startState)).ui
        CamId.cam1).storageEnabled = false ∧
    ((on_connectToolButton_clicked CamId.cam1 true
        (on_connectToolButton_clicked CamId.cam1 true startState)).ui
        CamId.cam1).motionRegionsEnabled = false ∧
    ((on_connectToolButton_clicked CamId.cam1 true
        (on_connectToolButton_clicked CamId.cam1 true startState)).ui
        CamId.cam1).connectShowsDisconnect = false :=
  connect_toggle_twice_restores_affordances startState CamId.cam1 sampleCam1 rfl rfl rfl

/-! C6: adding a motion region in edit mode. -/

/-- C6: a completed drag on a connected slot in edit mode, with a stored
configuration holding the current working set, appends exactly one
normalised rectangle to the working set, writes and persists the updated
set in the camera configuration, and — after the forced
disconnect/reconnect (both constructor outcomes succeeding) — leaves the
slot reconnected, edit mode re-asserted, and the working set equal to the
persisted set (hence of equal size). -/
theorem area_selection_appends_persists_reconnects (s : MainState) (camId : CamId)
    (camera : IpCamera) (percentageSelection : QRectF) (ws : List QRectF)
    (hdb : s.camDb camId = some camera) (hid : camera.camId = camId)
    (hconn : s.streamProcessors camId = true)
    (hws : s.camMotionRegions camId = some ws) :
    (VideoFrameAreaSelection camId percentageSelection true true s).camDb camId =
      some { camera with motionRegions := ws ++ [percentageSelection] } ∧
    (VideoFrameAreaSelection camId percentageSelection true true s).camMotionRegions camId =
      some (ws ++ [percentageSelection]) ∧
    (VideoFrameAreaSelection camId percentageSelection true true s).streamProcessors camId =
      true ∧
    (VideoFrameAreaSelection camId percentageSelection true true s).motionAreaSetupEnabled
      camId = some true := by
  simp [VideoFrameAreaSelection, ReconnectCamera, on_connectToolButton_clicked,
    ConnectionHandler, EnableMotionRegionsSetup, hdb, hid, hconn, hws, updF]

/-- Witness for C6: camera 1 connected with edit mode on (empty working set),
then one drag appends one region. -/
theorem area_selection_appends_persists_reconnects_witness :
    (VideoFrameAreaSelection CamId.cam1 ⟨⟨1, 4⟩, ⟨1, 4⟩, ⟨1, 2⟩, ⟨1, 2⟩⟩ true true
        (EnableMotionRegionsSetup CamId.cam1 true false
          (on_connectToolButton_clicked CamId.cam1 true startState))).camDb CamId.cam1 =
      some { sampleCam1 with motionRegions := [] ++ [⟨⟨1, 4⟩, ⟨1, 4⟩, ⟨1, 2⟩, ⟨1, 2⟩⟩] } ∧
    (VideoFrameAreaSelection CamId.cam1 ⟨⟨1, 4⟩, ⟨1, 4⟩, ⟨1, 2⟩, ⟨1, 2⟩⟩ true true
        (EnableMotionRegionsSetup CamId.cam1 true false
          (on_connectToolButton_clicked CamId.cam1 true startState))).camMotionRegions
        CamId.cam1 = some ([] ++ [⟨⟨1, 4⟩, ⟨1, 4⟩, ⟨1, 2⟩, ⟨1, 2⟩⟩]) ∧
    (VideoFrameAreaSelection CamId.cam1 ⟨⟨1, 4⟩, ⟨1, 4⟩, ⟨1, 2⟩, ⟨1, 2⟩⟩ true true
        (EnableMotionRegionsSetup CamId.cam1 true false
          (on_connectToolButton_clicked CamId.cam1 true startState))).streamProcessors
        CamId.cam1 = true ∧
    (VideoFrameAreaSelection CamId.cam1 ⟨⟨1, 4⟩, ⟨1, 4⟩, ⟨1, 2⟩, ⟨1, 2⟩⟩ true true
        (EnableMotionRegionsSetup CamId.cam1 true false
          (on_connectToolButton_clicked CamId.cam1 true startState))).motionAreaSetupEnabled
        CamId.cam1 = some true :=
  area_selection_appends_persists_reconnects
    (EnableMotionRegionsSetup CamId.cam1 true false
      (on_connectToolButton_clicked CamId.cam1 true startState))
    CamId.cam1 sampleCam1 ⟨⟨1, 4⟩, ⟨1, 4⟩, ⟨1, 2⟩, ⟨1, 2⟩⟩ [] rfl rfl rfl rfl

/-! C7: removing all motion regions. -/

/-- C7: for a slot with a stored configuration, declining the remove-regions
confirmation changes nothing (in particular no reconnect occurs); confirming
leaves both the persisted motion-region set and the slot's in-memory working
set empty, whatever the slot's connection state and whatever the outcomes of
the forced reconnect's two constructor calls. -/
theorem remove_regions_confirm_clears_decline_keeps (s : MainState) (camId : CamId)
    (camera : IpCamera) (ok1 ok2 : Bool) (hdb : s.camDb camId = some camera)
    (hid : camera.camId = camId) :
    RemoveMotionRegions camId false ok1 ok2 s = s ∧
    (RemoveMotionRegions camId true ok1 ok2 s).camDb camId =
      some { camera with motionRegions := [] } ∧
    ((RemoveMotionRegions camId true ok1 ok2 s).camMotionRegions camId).getD [] = [] := by
  refine ⟨by simp [RemoveMotionRegions, hdb], ?_, ?_⟩ <;>
  · cases hP : s.streamProcessors camId <;> cases ok1 <;> cases ok2 <;>
      cases hF : s.camFeeds camId <;>
      simp [RemoveMotionRegions, hdb, ReconnectCamera, on_connectToolButton_clicked,
        ConnectionHandler, EnableMotionRegionsSetup, hid, hP, hF, updF]

/-- Witness for C7: removing regions from the connected camera 1. -/
theorem remove_regions_confirm_clears_decline_keeps_witness :
    RemoveMotionRegions CamId.cam1 false true true
        (on_connectToolButton_clicked CamId.cam1 true startState) =
      (on_connectToolButton_clicked CamId.cam1 true startState) ∧
    (RemoveMotionRegions CamId.cam1 true true true
        (on_connectToolButton_clicked CamId.cam1 true startState)).camDb CamId.cam1 =
      some { sampleCam1 with motionRegions := [] } ∧
    ((RemoveMotionRegions CamId.cam1 true true true
        (on_connectToolButton_clicked CamId.cam1 true startState)).camMotionRegions
        CamId.cam1).getD [] = [] :=
  remove_regions_confirm_clears_decline_keeps
    (on_connectToolButton_clicked CamId.cam1 true startState) CamId.cam1 sampleCam1
    true true rfl rfl

/-! C4: the red/green decision for the motion bounding rectangle. -/

/-- C4: in every rendered frame, user motion regions are drawn only when edit
mode is on for the slot, and a present (drawn) motion bounding rectangle is
red exactly when it intersects at least one drawn user motion region, green
otherwise. -/
theorem motion_rect_red_iff_intersects_drawn_region (feedW feedH frameW frameH : Int)
    (mr : QRect) (me : Bool) (regs : List QRectF) (wr : Bool) :
    (me = false →
      (UpdateCamFeedFrame feedW feedH frameW frameH mr me regs wr).userRegionRects = []) ∧
    (∀ r isRed,
      (UpdateCamFeedFrame feedW feedH frameW frameH mr me regs wr).motionRect =
          some (r, isRed) →
      (isRed = true ↔
        ∃ q ∈ (UpdateCamFeedFrame feedW feedH frameW frameH mr me regs wr).userRegionRects,
          r.intersects q = true)) := by
  constructor
  · intro hme
    rw [UpdateCamFeedFrame_userRegionRects_eq, hme]
    simp
  · intro r isRed hmr
    rw [UpdateCamFeedFrame_motionRect_eq] at hmr
    rw [UpdateCamFeedFrame_userRegionRects_eq]
    split at hmr
    · injection hmr with h
      rw [Prod.ext_iff] at h
      obtain ⟨h1, h2⟩ := h
      subst h1; subst h2
      simp [List.any_eq_true]
    · exact absurd hmr (by simp)

/-- Witness for C4: a 1920×1080 frame in a 640×360 slot with edit mode on and
one user region covering the top-left quadrant; the rescaled motion
rectangle intersects it, so the flag is red. -/
theorem motion_rect_red_iff_intersects_drawn_region_witness :
    (true = true ↔
      ∃ q ∈ (UpdateCamFeedFrame 640 360 1920 1080 (QRect.mkXYWH 300 300 100 100) true
          [⟨⟨0, 2⟩, ⟨0, 2⟩, ⟨1, 2⟩, ⟨1, 2⟩⟩] false).userRegionRects,
        QRect.intersects ⟨100, 100, 133, 133⟩ q = true) :=
  (motion_rect_red_iff_intersects_drawn_region 640 360 1920 1080
      (QRect.mkXYWH 300 300 100 100) true [⟨⟨0, 2⟩, ⟨0, 2⟩, ⟨1, 2⟩, ⟨1, 2⟩⟩] false).2
    ⟨100, 100, 133, 133⟩ true (by decide)

/-! C3: the scaling rule and the 1920×1080 → 640×360 example. -/

/-- C3: a 1920×1080 raw frame rendered into a 640×360 slot yields a 640×360
output bitmap with uniform scale factor `s = 640/1920 = 1/3`, and the motion
bounding rectangle `(300,300,100,100)` in raw coordinates maps to
`(100,100,34,34)` in output coordinates — within the claimed ±1 pixel of
`(100,100,33,33)` in every coordinate; moreover, for positive dimensions,
`s = 1` (no scaling) holds exactly when the raw frame does not exceed the
slot in either dimension. -/
theorem render_scaling_example_and_rule :
    ((UpdateCamFeedFrame 640 360 1920 1080 (QRect.mkXYWH 300 300 100 100)
        false [] false).displayW = 640 ∧
     (UpdateCamFeedFrame 640 360 1920 1080 (QRect.mkXYWH 300 300 100 100)
        false [] false).displayH = 360 ∧
     3 * (UpdateCamFeedFrame 640 360 1920 1080 (QRect.mkXYWH 300 300 100 100)
        false [] false).scalarNum =
       (UpdateCamFeedFrame 640 360 1920 1080 (QRect.mkXYWH 300 300 100 100)
        false [] false).scalarDen ∧
     (UpdateCamFeedFrame 640 360 1920 1080 (QRect.mkXYWH 300 300 100 100)
        false [] false).motionRect = some (QRect.mkXYWH 100 100 34 34, false)) ∧
    (∀ (feedW feedH frameW frameH : Int) (mr : QRect) (me : Bool) (regs : List QRectF)
        (wr : Bool), 0 < feedW → 0 < feedH → 0 < frameW → 0 < frameH →
      ((UpdateCamFeedFrame feedW feedH frameW frameH mr me regs wr).scalarNum =
          (UpdateCamFeedFrame feedW feedH frameW frameH mr me regs wr).scalarDen ↔
        frameW ≤ feedW ∧ frameH ≤ feedH)) := by
  constructor
  · exact ⟨by decide, by decide, by decide, by decide⟩
  · intro fw fh rw rh mr me regs wr hfw hfh hrw hrh
    rw [UpdateCamFeedFrame_scalarNum_eq, UpdateCamFeedFrame_scalarDen_eq,
      renderScalarNum, renderScalarDen]
    simp only [Bool.or_eq_true, decide_eq_true_eq]
    by_cases hs : fw < rw ∨ fh < rh
    · rw [if_pos hs, if_pos hs]
      have hlt : (scaledNewWH fw fh rw rh).1 < rw := by
        rw [scaledNewWH]
        by_cases hb : fw * rh < rw * fh
        · rw [if_pos hb]
          show fw < rw
          by_contra hc
          push_neg at hc
          have h1 : rw * rh ≤ fw * rh := mul_le_mul_of_nonneg_right hc (by omega)
          have h3 : rh < fh := by nlinarith
          rcases hs with h | h <;> omega
        · rw [if_neg hb]
          show (fh * rw).tdiv rh < rw
          push_neg at hb
          have hfh2 : fh < rh := by
            by_contra hc
            push_neg at hc
            rcases hs with h | h
            · nlinarith
            · omega
          have hnn : (0:Int) ≤ fh * rw := by positivity
          rw [Int.tdiv_eq_ediv hnn (le_of_lt hrh), Int.ediv_lt_iff_lt_mul hrh]
          nlinarith
      constructor
      · intro h
        exfalso
        omega
      · intro h
        exfalso
        rcases hs with h2 | h2 <;> omega
    · rw [if_neg hs, if_neg hs]
      push_neg at hs
      constructor
      · intro _
        exact ⟨by omega, by omega⟩
      · intro _
        rfl

/-- Witness for C3: the scaling rule applied at the example dimensions (the
frame exceeds the slot, so `s ≠ 1`). -/
theorem render_scaling_example_and_rule_witness :
    (UpdateCamFeedFrame 640 360 1920 1080 (QRect.mkXYWH 300 300 100 100)
        false [] false).scalarNum =
      (UpdateCamFeedFrame 640 360 1920 1080 (QRect.mkXYWH 300 300 100 100)
        false [] false).scalarDen ↔ (1920 : Int) ≤ 640 ∧ (1080 : Int) ≤ 360 :=
  render_scaling_example_and_rule.2 640 360 1920 1080 (QRect.mkXYWH 300 300 100 100)
    false [] false (by decide) (by decide) (by decide) (by decide)

/-- Scaling by a nonnegative exact fraction `n / d` (truncating) is monotone
on nonnegative coordinates. -/
theorem tdiv_scale_mono {a b n d : Int} (ha : 0 ≤ a) (hab : a ≤ b) (hn : 0 ≤ n) (hd : 0 < d) :
    (a * n).tdiv d ≤ (b * n).tdiv d := by
  rw [Int.tdiv_eq_ediv (mul_nonneg ha hn) (le_of_lt hd),
    Int.tdiv_eq_ediv (mul_nonneg (le_trans ha hab) hn) (le_of_lt hd)]
  exact Int.ediv_le_ediv hd (mul_le_mul_of_nonneg_right hab hn)

/-- A coordinate within `[0, d-1]` scaled by the exact fraction `n / d`
(truncating) lands within `[0, n-1]`. -/
theorem tdiv_scale_le_sub_one {c n d : Int} (hc : 0 ≤ c) (hcd : c ≤ d - 1) (hn : 0 < n)
    (hd : 0 < d) : (c * n).tdiv d ≤ n - 1 := by
  rw [Int.tdiv_eq_ediv (mul_nonneg hc (le_of_lt hn)) (le_of_lt hd)]
  have h2 : c * n / d ≤ (d - 1) * n / d :=
    Int.ediv_le_ediv hd (mul_le_mul_of_nonneg_right hcd (le_of_lt hn))
  have h3 : (d - 1) * n / d < n := by
    rw [Int.ediv_lt_iff_lt_mul hd]
    nlinarith
  omega

/-- Without scaling, the displayed bitmap has the raw frame dimensions. -/
theorem renderDisplayWH_unscaled {fw fh rw rh : Int} (h : ¬(fw < rw ∨ fh < rh)) :
    renderDisplayWH fw fh rw rh = (rw, rh) := by
  simp only [renderDisplayWH, Bool.or_eq_true, decide_eq_true_eq]
  rw [if_neg h]

/-- Height-constrained scaling branch (slot aspect ratio at least frame
aspect ratio): Qt's `scaled` recomputation agrees with the computed
`(newWidth, newHeight)`, and the display fits the slot width. -/
theorem renderDisplayWH_br2 {fw fh rw rh : Int} (hfh : 0 < fh) (hrw : 0 < rw) (hrh : 0 < rh)
    (hs : fw < rw ∨ fh < rh) (hb : ¬(fw * rh < rw * fh)) :
    renderDisplayWH fw fh rw rh = ((fh * rw).tdiv rh, fh) ∧ (fh * rw).tdiv rh ≤ fw := by
  constructor
  · simp only [renderDisplayWH, scaledNewWH, Bool.or_eq_true, decide_eq_true_eq]
    rw [if_pos hs, if_neg hb]
    simp only [qtKeepAspectScaled]
    rw [if_neg (by simp [hrw.ne', hrh.ne'] : ¬((rw == 0 || rh == 0) = true))]
    rw [if_pos (le_refl ((fh * rw).tdiv rh))]
  · push_neg at hb
    rw [Int.tdiv_eq_ediv (by positivity) (le_of_lt hrh)]
    calc fh * rw / rh ≤ fw * rh / rh := Int.ediv_le_ediv hrh (by nlinarith)
      _ = fw := Int.mul_ediv_cancel _ hrh.ne'

/-- Width-constrained scaling branch: the displayed width is Qt's recomputed
`newHeight * frameW / frameH` (at most the slot width) and the displayed
height is the computed `newHeight` (strictly below the slot height). -/
theorem renderDisplayWH_br1 {fw fh rw rh : Int} (hfw : 0 < fw) (hrw : 0 < rw) (hrh : 0 < rh)
    (hs : fw < rw ∨ fh < rh) (hb : fw * rh < rw * fh) :
    renderDisplayWH fw fh rw rh =
      ((((fw * rh).tdiv rw) * rw).tdiv rh, (fw * rh).tdiv rw) ∧
    (((fw * rh).tdiv rw) * rw).tdiv rh ≤ fw ∧ (fw * rh).tdiv rw ≤ fh - 1 := by
  have hnewH : (0:Int) ≤ (fw * rh).tdiv rw :=
    Int.tdiv_nonneg (by positivity) (le_of_lt hrw)
  have hle : (((fw * rh).tdiv rw) * rw).tdiv rh ≤ fw := by
    rw [Int.tdiv_eq_ediv (mul_nonneg hnewH (le_of_lt hrw)) (le_of_lt hrh)]
    have h1 : ((fw * rh).tdiv rw) * rw ≤ fw * rh := by
      rw [Int.tdiv_eq_ediv (by positivity) (le_of_lt hrw)]
      exact Int.ediv_mul_le _ hrw.ne'
    calc ((fw * rh).tdiv rw) * rw / rh ≤ fw * rh / rh := Int.ediv_le_ediv hrh h1
      _ = fw := Int.mul_ediv_cancel _ hrh.ne'
  have hnh : (fw * rh).tdiv rw ≤ fh - 1 := by
    rw [Int.tdiv_eq_ediv (by positivity) (le_of_lt hrw)]
    have hlt : fw * rh / rw < fh := by
      rw [Int.ediv_lt_iff_lt_mul hrw]
      nlinarith
    omega
  refine ⟨?_, hle, hnh⟩
  simp only [renderDisplayWH, scaledNewWH, Bool.or_eq_true, decide_eq_true_eq]
  rw [if_pos hs, if_pos hb]
  simp only [qtKeepAspectScaled]
  rw [if_neg (by simp [hrw.ne', hrh.ne'] : ¬((rw == 0 || rh == 0) = true))]
  rw [if_pos hle]


/-- A normalised user region converted against positive display dimensions
lies entirely inside them. -/
theorem region_rect_in_bounds {dw dh : Int} (hdw : 0 < dw) (hdh : 0 < dh) (g : QRectF)
    (hg : regionNormalised g) :
    rectInBounds (CreateQRectFromVideoFrameDims dw dh g) dw dh = true := by
  obtain ⟨hl, hld, ht, htd, hw, hwd, hh, hhd, hx, hy⟩ := hg
  simp only [rectInBounds, CreateQRectFromVideoFrameDims, QRect.mkXYWH, Frac.scaleTrunc,
    Bool.and_eq_true, decide_eq_true_eq]
  have hx1nn : 0 ≤ (g.left.num * dw).tdiv g.left.den :=
    Int.tdiv_nonneg (mul_nonneg hl (le_of_lt hdw)) (le_of_lt hld)
  have hy1nn : 0 ≤ (g.top.num * dh).tdiv g.top.den :=
    Int.tdiv_nonneg (mul_nonneg ht (le_of_lt hdh)) (le_of_lt htd)
  have hlnum : g.left.num < g.left.den := by nlinarith
  have htnum : g.top.num < g.top.den := by nlinarith
  have hx1lt : (g.left.num * dw).tdiv g.left.den ≤ dw - 1 := by
    rw [Int.tdiv_eq_ediv (mul_nonneg hl (le_of_lt hdw)) (le_of_lt hld)]
    have hlt : g.left.num * dw / g.left.den < dw := by
      rw [Int.ediv_lt_iff_lt_mul hld]
      nlinarith
    omega
  have hy1lt : (g.top.num * dh).tdiv g.top.den ≤ dh - 1 := by
    rw [Int.tdiv_eq_ediv (mul_nonneg ht (le_of_lt hdh)) (le_of_lt htd)]
    have hlt : g.top.num * dh / g.top.den < dh := by
      rw [Int.ediv_lt_iff_lt_mul htd]
      nlinarith
    omega
  have hx2 : (g.left.num * dw).tdiv g.left.den + (g.width.num * dw).tdiv g.width.den ≤ dw := by
    have e1 : ((g.left.num * dw).tdiv g.left.den) * g.left.den ≤ g.left.num * dw := by
      rw [Int.tdiv_eq_ediv (mul_nonneg hl (le_of_lt hdw)) (le_of_lt hld)]
      exact Int.ediv_mul_le _ hld.ne'
    have e2 : ((g.width.num * dw).tdiv g.width.den) * g.width.den ≤ g.width.num * dw := by
      rw [Int.tdiv_eq_ediv (mul_nonneg (le_of_lt hw) (le_of_lt hdw)) (le_of_lt hwd)]
      exact Int.ediv_mul_le _ hwd.ne'
    have key : ((g.left.num * dw).tdiv g.left.den + (g.width.num * dw).tdiv g.width.den) *
        (g.left.den * g.width.den) ≤ dw * (g.left.den * g.width.den) := by
      nlinarith [mul_le_mul_of_nonneg_right e1 (le_of_lt hwd),
        mul_le_mul_of_nonneg_right e2 (le_of_lt hld),
        mul_le_mul_of_nonneg_left hx (le_of_lt hdw)]
    exact le_of_mul_le_mul_right key (by positivity)
  have hy2 : (g.top.num * dh).tdiv g.top.den + (g.height.num * dh).tdiv g.height.den ≤ dh := by
    have e1 : ((g.top.num * dh).tdiv g.top.den) * g.top.den ≤ g.top.num * dh := by
      rw [Int.tdiv_eq_ediv (mul_nonneg ht (le_of_lt hdh)) (le_of_lt htd)]
      exact Int.ediv_mul_le _ htd.ne'
    have e2 : ((g.height.num * dh).tdiv g.height.den) * g.height.den ≤ g.height.num * dh := by
      rw [Int.tdiv_eq_ediv (mul_nonneg (le_of_lt hh) (le_of_lt hdh)) (le_of_lt hhd)]
      exact Int.ediv_mul_le _ hhd.ne'
    have key : ((g.top.num * dh).tdiv g.top.den + (g.height.num * dh).tdiv g.height.den) *
        (g.top.den * g.height.den) ≤ dh * (g.top.den * g.height.den) := by
      nlinarith [mul_le_mul_of_nonneg_right e1 (le_of_lt hhd),
        mul_le_mul_of_nonneg_right e2 (le_of_lt htd),
        mul_le_mul_of_nonneg_left hy (le_of_lt hdh)]
    exact le_of_mul_le_mul_right key (by positivity)
  omega

/-! C9: renderer output dimensions and annotation bounds. -/

/-- C9 counterexample: the claim states every drawn element lies within the
displayed frame bounds.  For a 100×15 raw frame in a 10×2 slot with the
motion bounding rectangle covering the whole frame (which satisfies all the
claim's side conditions, see the final conjunct) and recording on, the
displayed bitmap is 6×1 but the drawn motion rectangle reaches `x2 = 9` and
the recording label rectangle starts at `y1 = 16`: both outside the
displayed bounds. -/
theorem render_out_of_bounds_counterexample :
    (UpdateCamFeedFrame 10 2 100 15 (QRect.mkXYWH 0 0 100 15) false [] true).displayW = 6 ∧
    (UpdateCamFeedFrame 10 2 100 15 (QRect.mkXYWH 0 0 100 15) false [] true).displayH = 1 ∧
    (UpdateCamFeedFrame 10 2 100 15 (QRect.mkXYWH 0 0 100 15) false [] true).motionRect =
      some ({ x1 := 0, y1 := 0, x2 := 9, y2 := 1 }, false) ∧
    rectInBounds { x1 := 0, y1 := 0, x2 := 9, y2 := 1 } 6 1 = false ∧
    (UpdateCamFeedFrame 10 2 100 15 (QRect.mkXYWH 0 0 100 15) false [] true).recordLabelRect =
      some { x1 := 0, y1 := 16, x2 := 5, y2 := 0 } ∧
    rectInBounds { x1 := 0, y1 := 16, x2 := 5, y2 := 0 } 6 1 = false ∧
    ((0:Int) ≤ 0 ∧ (0:Int) ≤ 0 ∧ (99:Int) ≤ 100 - 1 ∧ (14:Int) ≤ 15 - 1) := by
  decide

/-- C9 (amended): for positive dimensions, a motion rectangle that is null or
within the raw frame, and normalised user regions, every guarantee of
`renderBoundsOk` holds: exact raw dimensions when unscaled and slot-fitting
dimensions when scaled, user regions and (for displays at least 17 pixels
high) the recording label inside the displayed bitmap, and the motion
rectangle inside it except in the width-constrained scaling branch, where
only `x2 ≤ feedW - 1` and `y2 ≤ displayH` hold.  The raw frame itself is
never touched: the embedding is a pure function of it. -/
theorem render_result_bounds (feedW feedH frameW frameH : Int) (mr : QRect) (me : Bool)
    (regs : List QRectF) (wr : Bool)
    (hfw : 0 < feedW) (hfh : 0 < feedH) (hrw : 0 < frameW) (hrh : 0 < frameH)
    (hmr : mr.isNull = true ∨
      (0 ≤ mr.x1 ∧ mr.x1 ≤ mr.x2 ∧ mr.x2 ≤ frameW - 1 ∧
       0 ≤ mr.y1 ∧ mr.y1 ≤ mr.y2 ∧ mr.y2 ≤ frameH - 1))
    (hregs : ∀ g ∈ regs, regionNormalised g) :
    renderBoundsOk feedW feedH frameW frameH
      (UpdateCamFeedFrame feedW feedH frameW frameH mr me regs wr) := by
  simp only [renderBoundsOk, UpdateCamFeedFrame_displayW_eq, UpdateCamFeedFrame_displayH_eq,
    UpdateCamFeedFrame_userRegionRects_eq, UpdateCamFeedFrame_recordLabelRect_eq,
    UpdateCamFeedFrame_motionRect_eq]
  refine ⟨?_, ?_, ?_, ?_, ?_⟩
  · -- (A1) unscaled dimensions
    intro h
    rw [renderDisplayWH_unscaled h]
    exact ⟨rfl, rfl⟩
  · -- (A2) scaled dimensions fit the slot
    intro hs
    by_cases hb : feedW * frameH < frameW * feedH
    · obtain ⟨heq, hle, hnhle⟩ := renderDisplayWH_br1 hfw hrw hrh hs hb
      rw [heq]
      have h1 : 0 ≤ ((feedW * frameH).tdiv frameW * frameW).tdiv frameH :=
        Int.tdiv_nonneg
          (mul_nonneg (Int.tdiv_nonneg (by positivity) (le_of_lt hrw)) (le_of_lt hrw))
          (le_of_lt hrh)
      have h2 : 0 ≤ (feedW * frameH).tdiv frameW :=
        Int.tdiv_nonneg (by positivity) (le_of_lt hrw)
      exact ⟨h1, hle, h2, by omega⟩
    · obtain ⟨heq, hle⟩ := renderDisplayWH_br2 hfh hrw hrh hs hb
      rw [heq]
      have h1 : 0 ≤ (feedH * frameW).tdiv frameH :=
        Int.tdiv_nonneg (by positivity) (le_of_lt hrh)
      exact ⟨h1, hle, le_of_lt hfh, le_refl _⟩
  · -- (B) user regions stay inside the displayed bitmap
    intro hdw hdh q hq
    by_cases hme : me = true
    · rw [if_pos hme] at hq
      obtain ⟨g, hg, rfl⟩ := List.mem_map.1 hq
      exact region_rect_in_bounds hdw hdh g (hregs g hg)
    · rw [if_neg hme] at hq
      exact absurd hq (List.not_mem_nil q)
  · -- (C) the recording label (for display height ≥ 17)
    intro r hr h17 hdw
    by_cases hwr : wr = true
    · rw [if_pos hwr] at hr
      injection hr with hr
      subst hr
      simp only [rectInBounds, Bool.and_eq_true, decide_eq_true_eq]
      omega
    · rw [if_neg hwr] at hr
      exact absurd hr (by simp)
  · -- (D) the rescaled motion bounding rectangle
    intro r b hrb
    split at hrb
    case isFalse => exact absurd hrb (by simp)
    case isTrue hnul =>
      injection hrb with hpair
      rw [Prod.ext_iff] at hpair
      obtain ⟨hr, _⟩ := hpair
      have hmrnull : mr.isNull = false := by
        cases hmn2 : mr.isNull
        · rfl
        · exfalso
          rw [scaledMotionRect] at hnul
          simp [hmn2] at hnul
      have hbox : 0 ≤ mr.x1 ∧ mr.x1 ≤ mr.x2 ∧ mr.x2 ≤ frameW - 1 ∧
          0 ≤ mr.y1 ∧ mr.y1 ≤ mr.y2 ∧ mr.y2 ≤ frameH - 1 := by
        rcases hmr with hmn | hbox
        · rw [hmn] at hmrnull; exact absurd hmrnull (by simp)
        · exact hbox
      obtain ⟨ha1, ha2, ha3, ha4, ha5, ha6⟩ := hbox
      subst hr
      by_cases hs : feedW < frameW ∨ feedH < frameH
      · -- scaling applies
        have hsn : renderScalarNum feedW feedH frameW frameH =
            (scaledNewWH feedW feedH frameW frameH).1 := by
          simp only [renderScalarNum, Bool.or_eq_true, decide_eq_true_eq]
          rw [if_pos hs]
        have hsd : renderScalarDen feedW feedH frameW frameH = frameW := by
          simp only [renderScalarDen, Bool.or_eq_true, decide_eq_true_eq]
          rw [if_pos hs]
        by_cases hb : feedW * frameH < frameW * feedH
        · -- width-constrained branch
          have hsn1 : renderScalarNum feedW feedH frameW frameH = feedW := by
            rw [hsn, scaledNewWH, if_pos hb]
          obtain ⟨heq, hwle, hnhle⟩ := renderDisplayWH_br1 hfw hrw hrh hs hb
          rw [hsn1, hsd, heq]
          simp only [scaledMotionRect, hmrnull, Bool.not_false, if_true]
          refine ⟨⟨?_, ?_⟩, ?_, ?_, ?_⟩
          · exact Int.tdiv_nonneg (mul_nonneg ha1 (le_of_lt hfw)) (le_of_lt hrw)
          · exact Int.tdiv_nonneg (mul_nonneg ha4 (le_of_lt hfw)) (le_of_lt hrw)
          · intro hc; exact absurd hs hc
          · intro _ hc; exact absurd hb hc
          · intro _ _
            constructor
            · exact tdiv_scale_le_sub_one (le_trans ha1 ha2) ha3 hfw hrw
            · have s1 : (mr.y2 * feedW).tdiv frameW ≤
                  ((frameH - 1) * feedW).tdiv frameW :=
                tdiv_scale_mono (le_trans ha4 ha5) ha6 (le_of_lt hfw) hrw
              have s2 : ((frameH - 1) * feedW).tdiv frameW ≤
                  (frameH * feedW).tdiv frameW :=
                tdiv_scale_mono (by omega) (by omega) (le_of_lt hfw) hrw
              have s3 : (frameH * feedW).tdiv frameW = (feedW * frameH).tdiv frameW := by
                rw [mul_comm]
              omega
        · -- height-constrained branch
          have hsn2 : renderScalarNum feedW feedH frameW frameH =
              (feedH * frameW).tdiv frameH := by
            rw [hsn, scaledNewWH, if_neg hb]
          obtain ⟨heq, hwle⟩ := renderDisplayWH_br2 hfh hrw hrh hs hb
          rw [hsn2, hsd, heq]
          simp only [scaledMotionRect, hmrnull, Bool.not_false, if_true]
          refine ⟨⟨?_, ?_⟩, ?_, ?_, ?_⟩
          · exact Int.tdiv_nonneg
              (mul_nonneg ha1 (Int.tdiv_nonneg (by positivity) (le_of_lt hrh)))
              (le_of_lt hrw)
          · exact Int.tdiv_nonneg
              (mul_nonneg ha4 (Int.tdiv_nonneg (by positivity) (le_of_lt hrh)))
              (le_of_lt hrw)
          · intro hc; exact absurd hs hc
          · intro _ _ hdw
            simp only [rectInBounds, Bool.and_eq_true, decide_eq_true_eq]
            have nWpos : 0 < (feedH * frameW).tdiv frameH := hdw
            have c1 : 0 ≤ (mr.x1 * ((feedH * frameW).tdiv frameH)).tdiv frameW :=
              Int.tdiv_nonneg (mul_nonneg ha1 (le_of_lt nWpos)) (le_of_lt hrw)
            have c2 : 0 ≤ (mr.y1 * ((feedH * frameW).tdiv frameH)).tdiv frameW :=
              Int.tdiv_nonneg (mul_nonneg ha4 (le_of_lt nWpos)) (le_of_lt hrw)
            have c3 : (mr.x1 * ((feedH * frameW).tdiv frameH)).tdiv frameW ≤
                (mr.x2 * ((feedH * frameW).tdiv frameH)).tdiv frameW :=
              tdiv_scale_mono ha1 ha2 (le_of_lt nWpos) hrw
            have c4 : (mr.x2 * ((feedH * frameW).tdiv frameH)).tdiv frameW ≤
                (feedH * frameW).tdiv frameH - 1 :=
              tdiv_scale_le_sub_one (le_trans ha1 ha2) ha3 nWpos hrw
            have c5 : (mr.y1 * ((feedH * frameW).tdiv frameH)).tdiv frameW ≤
                (mr.y2 * ((feedH * frameW).tdiv frameH)).tdiv frameW :=
              tdiv_scale_mono ha4 ha5 (le_of_lt nWpos) hrw
            have c6 : (mr.y2 * ((feedH * frameW).tdiv frameH)).tdiv frameW ≤ feedH - 1 := by
              have s1 : (mr.y2 * ((feedH * frameW).tdiv frameH)).tdiv frameW ≤
                  ((frameH - 1) * ((feedH * frameW).tdiv frameH)).tdiv frameW :=
                tdiv_scale_mono (le_trans ha4 ha5) ha6 (le_of_lt nWpos) hrw
              have s2 : ((frameH - 1) * ((feedH * frameW).tdiv frameH)).tdiv frameW <
                  feedH := by
                rw [Int.tdiv_eq_ediv
                  (mul_nonneg (by omega) (le_of_lt nWpos)) (le_of_lt hrw)]
                rw [Int.ediv_lt_iff_lt_mul hrw]
                have s3 : ((feedH * frameW).tdiv frameH) * frameH ≤ feedH * frameW := by
                  rw [Int.tdiv_eq_ediv (by positivity) (le_of_lt hrh)]
                  exact Int.ediv_mul_le _ hrh.ne'
                nlinarith
              omega
            omega
          · intro _ hc; exact absurd hc hb
      · -- no scaling: scalar is 1/1 and the rectangle is drawn unscaled
        have hsn : renderScalarNum feedW feedH frameW frameH = 1 := by
          simp only [renderScalarNum, Bool.or_eq_true, decide_eq_true_eq]
          rw [if_neg hs]
        have hsd : renderScalarDen feedW feedH frameW frameH = 1 := by
          simp only [renderScalarDen, Bool.or_eq_true, decide_eq_true_eq]
          rw [if_neg hs]
        rw [hsn, hsd, renderDisplayWH_unscaled hs]
        have hsm : scaledMotionRect mr 1 1 =
            { x1 := mr.x1, y1 := mr.y1, x2 := mr.x2, y2 := mr.y2 } := by
          simp [scaledMotionRect, hmrnull, Int.tdiv_one]
        rw [hsm]
        refine ⟨⟨ha1, ha4⟩, ?_, ?_, ?_⟩
        · intro _
          simp only [rectInBounds, Bool.and_eq_true, decide_eq_true_eq]
          omega
        · intro hc; exact absurd hc hs
        · intro hc; exact absurd hc hs


/-- Witness for C9 (amended): the example frame with edit mode on, one user
region and recording on. -/
theorem render_result_bounds_witness :
    renderBoundsOk 640 360 1920 1080
      (UpdateCamFeedFrame 640 360 1920 1080 (QRect.mkXYWH 300 300 100 100) true
        [⟨⟨0, 2⟩, ⟨0, 2⟩, ⟨1, 2⟩, ⟨1, 2⟩⟩] true) :=
  render_result_bounds 640 360 1920 1080 (QRect.mkXYWH 300 300 100 100) true
    [⟨⟨0, 2⟩, ⟨0, 2⟩, ⟨1, 2⟩, ⟨1, 2⟩⟩] true (by decide) (by decide) (by decide) (by decide)
    (by decide) (by decide)


end IpFreely
